import Mathlib

/-!
# steve-example: the custom store, the authenticator and the schema templates

A shallow embedding of `main.go`.  Calls into the host server (the access
control oracle, the wrapped store, the schema factory, the HTTP listener) are
functions over an explicit world state `W`; a Go `error` is an `Option Error`
with `none` for `nil`.  Recording doubles wrap the collaborators so that the
calls a function makes can be read back from a log.
-/

namespace SteveExample

/-! ## Data model -/

/-- A non-nil Go `error` value, observed through its `Error()` message. -/
structure Error where
  message : String
deriving DecidableEq, Repr

/-- Modelled from the spec: the schema of a resource kind, whose declaration
is not in `main.go`; its group, its kind and its method-restriction set, the
HTTP methods the dispatcher refuses for the kind. -/
structure APISchema where
  Group : String
  Kind : String
  DisallowMethods : List String
deriving DecidableEq, Repr

/-- Types declared by the host libraries and only passed around by `main.go`:
the request, the API object with its zero value `types.APIObject{}`, the
object list, the watch request and the event channel. -/
structure Types where
  APIRequest : Type
  APIObject : Type
  APIObjectList : Type
  WatchRequest : Type
  APIEvents : Type
  zeroAPIObject : APIObject

/-- The access control oracle reached through `apiOp.AccessControl`:
`CanDo(apiOp, resource, verb, namespace, name)` answers `nil` or an error. -/
structure AccessControl (T : Types) (W : Type) where
  CanDo : T.APIRequest → String → String → String → String → W → Option Error × W

/-- Modelled from the spec: the `types.Store` interface, whose declaration is
not in `main.go`; the capability set Create, Get (`ByID`), List, Update,
Delete, Watch, each taking the request, the schema and a verb-specific
payload and returning a result together with an error. -/
structure Store (T : Types) (W : Type) where
  ByID : T.APIRequest → APISchema → String → W → (T.APIObject × Option Error) × W
  List : T.APIRequest → APISchema → W → (T.APIObjectList × Option Error) × W
  Create : T.APIRequest → APISchema → T.APIObject → W → (T.APIObject × Option Error) × W
  Update : T.APIRequest → APISchema → T.APIObject → String → W →
    (T.APIObject × Option Error) × W
  Delete : T.APIRequest → APISchema → String → W → (T.APIObject × Option Error) × W
  Watch : T.APIRequest → APISchema → T.WatchRequest → W → (T.APIEvents × Option Error) × W

/-- The struct `ConfigMapCustomStore`: it embeds the actual store. -/
structure ConfigMapCustomStore (T : Types) (W : Type) where
  Store : Store T W

/-! ## ConfigMapCustomStore -/

/-- The method `ConfigMapCustomStore.Create`.  `ac apiOp` is the field
`apiOp.AccessControl`. -/
def ConfigMapCustomStore.Create {T : Types} {W : Type} (c : ConfigMapCustomStore T W)
    (ac : T.APIRequest → AccessControl T W)
    (apiOp : T.APIRequest) (schema : APISchema) (data : T.APIObject) (w : W) :
    (T.APIObject × Option Error) × W :=
  match (ac apiOp).CanDo apiOp "secrets" "POST" "" "" w with
  | (some err, w1) => ((T.zeroAPIObject, some err), w1)
  | (none, w1) => c.Store.Create apiOp schema data w1

/-- The method `ByID`, promoted from the embedded store. -/
def ConfigMapCustomStore.ByID {T : Types} {W : Type} (c : ConfigMapCustomStore T W)
    (apiOp : T.APIRequest) (schema : APISchema) (id : String) (w : W) :
    (T.APIObject × Option Error) × W :=
  c.Store.ByID apiOp schema id w

/-- The method `List`, promoted from the embedded store. -/
def ConfigMapCustomStore.List {T : Types} {W : Type} (c : ConfigMapCustomStore T W)
    (apiOp : T.APIRequest) (schema : APISchema) (w : W) :
    (T.APIObjectList × Option Error) × W :=
  c.Store.List apiOp schema w

/-- The method `Update`, promoted from the embedded store. -/
def ConfigMapCustomStore.Update {T : Types} {W : Type} (c : ConfigMapCustomStore T W)
    (apiOp : T.APIRequest) (schema : APISchema) (data : T.APIObject) (id : String) (w : W) :
    (T.APIObject × Option Error) × W :=
  c.Store.Update apiOp schema data id w

/-- The method `Delete`, promoted from the embedded store. -/
def ConfigMapCustomStore.Delete {T : Types} {W : Type} (c : ConfigMapCustomStore T W)
    (apiOp : T.APIRequest) (schema : APISchema) (id : String) (w : W) :
    (T.APIObject × Option Error) × W :=
  c.Store.Delete apiOp schema id w

/-- The method `Watch`, promoted from the embedded store. -/
def ConfigMapCustomStore.Watch {T : Types} {W : Type} (c : ConfigMapCustomStore T W)
    (apiOp : T.APIRequest) (schema : APISchema) (wr : T.WatchRequest) (w : W) :
    (T.APIEvents × Option Error) × W :=
  c.Store.Watch apiOp schema wr w

/-- The `ConfigMapCustomStore` seen through the `types.Store` interface, as
the store factory of `run` returns it. -/
def ConfigMapCustomStore.toStore {T : Types} {W : Type} (c : ConfigMapCustomStore T W)
    (ac : T.APIRequest → AccessControl T W) : SteveExample.Store T W where
  ByID := c.ByID
  List := c.List
  Create := c.Create ac
  Update := c.Update
  Delete := c.Delete
  Watch := c.Watch

/-! ## Recording doubles -/

/-- One call received by a collaborator, with its arguments and its answer. -/
inductive Call (T : Types) where
  | canDo (apiOp : T.APIRequest) (resource verb ns name : String) (result : Option Error)
  | byID (apiOp : T.APIRequest) (schema : APISchema) (id : String)
      (result : T.APIObject × Option Error)
  | list (apiOp : T.APIRequest) (schema : APISchema)
      (result : T.APIObjectList × Option Error)
  | create (apiOp : T.APIRequest) (schema : APISchema) (data : T.APIObject)
      (result : T.APIObject × Option Error)
  | update (apiOp : T.APIRequest) (schema : APISchema) (data : T.APIObject) (id : String)
      (result : T.APIObject × Option Error)
  | delete (apiOp : T.APIRequest) (schema : APISchema) (id : String)
      (result : T.APIObject × Option Error)
  | watch (apiOp : T.APIRequest) (schema : APISchema) (wr : T.WatchRequest)
      (result : T.APIEvents × Option Error)

/-- Whether a logged call is an access-control check. -/
def Call.isCanDo {T : Types} : Call T → Bool
  | .canDo _ _ _ _ _ _ => true
  | _ => false

/-- Whether a logged call is a `Create` of the inner store. -/
def Call.isCreate {T : Types} : Call T → Bool
  | .create _ _ _ _ => true
  | _ => false

/-- An oracle that answers as `a` does and appends every check to the log. -/
def recordingAccessControl {T : Types} {W : Type} (a : AccessControl T W) :
    AccessControl T (W × List (Call T)) where
  CanDo := fun apiOp resource verb ns name s =>
    let r := a.CanDo apiOp resource verb ns name s.1
    (r.1, (r.2, s.2 ++ [Call.canDo apiOp resource verb ns name r.1]))

/-- A store that answers as `st` does and appends every call to the log. -/
def recordingStore {T : Types} {W : Type} (st : Store T W) : Store T (W × List (Call T)) where
  ByID := fun apiOp schema id s =>
    let r := st.ByID apiOp schema id s.1
    (r.1, (r.2, s.2 ++ [Call.byID apiOp schema id r.1]))
  List := fun apiOp schema s =>
    let r := st.List apiOp schema s.1
    (r.1, (r.2, s.2 ++ [Call.list apiOp schema r.1]))
  Create := fun apiOp schema data s =>
    let r := st.Create apiOp schema data s.1
    (r.1, (r.2, s.2 ++ [Call.create apiOp schema data r.1]))
  Update := fun apiOp schema data id s =>
    let r := st.Update apiOp schema data id s.1
    (r.1, (r.2, s.2 ++ [Call.update apiOp schema data id r.1]))
  Delete := fun apiOp schema id s =>
    let r := st.Delete apiOp schema id s.1
    (r.1, (r.2, s.2 ++ [Call.delete apiOp schema id r.1]))
  Watch := fun apiOp schema wr s =>
    let r := st.Watch apiOp schema wr s.1
    (r.1, (r.2, s.2 ++ [Call.watch apiOp schema wr r.1]))

/-- One observed run of `Create` on a `ConfigMapCustomStore` wrapping `inner`,
with request-bound oracles `ac`, from world `w` and an empty log: the returned
pair, the final world and the calls made, in order. -/
def observeCreate {T : Types} {W : Type} (ac : T.APIRequest → AccessControl T W)
    (inner : Store T W) (apiOp : T.APIRequest) (schema : APISchema) (data : T.APIObject)
    (w : W) : (T.APIObject × Option Error) × W × List (Call T) :=
  ConfigMapCustomStore.Create (ConfigMapCustomStore.mk (recordingStore inner))
    (fun r => recordingAccessControl (ac r)) apiOp schema data (w, [])

/-- Whether a logged call is an access-control check that answered `nil`. -/
def Call.isPermit {T : Types} : Call T → Bool
  | .canDo _ _ _ _ _ none => true
  | _ => false

/-! ## MyAuth -/

/-- The struct `user.DefaultInfo` with the fields `MyAuth` fills in. -/
structure DefaultInfo where
  Name : String
  UID : String
  Groups : List String
deriving DecidableEq, Repr

/-- The part of `http.Request` that carries credentials: method, URL and
headers. -/
structure Request where
  Method : String
  URL : String
  Header : List (String × List String)
deriving DecidableEq, Repr

/-- The first value of the `Authorization` header, if the request has one. -/
def Request.authorization (req : Request) : Option String :=
  (req.Header.lookup "Authorization").bind List.head?

/-- The function `MyAuth`: the identity, the authenticated flag and the error. -/
def MyAuth (_req : Request) : Option DefaultInfo × Bool × Option Error :=
  (some { Name := "bob", UID := "bob", Groups := ["system:masters"] }, true, none)

/-! ## Schema templates -/

/-- The constant `http.MethodGet`. -/
def MethodGet : String := "GET"

/-- The constant `http.MethodPost`. -/
def MethodPost : String := "POST"

/-- The constant `http.MethodPut`. -/
def MethodPut : String := "PUT"

/-- The constant `http.MethodDelete`. -/
def MethodDelete : String := "DELETE"

/-- The constant `http.MethodPatch`. -/
def MethodPatch : String := "PATCH"

/-- Modelled from the spec: `attributes.AddDisallowMethods`, which is not in
`main.go`; the given methods join the schema's method-restriction set, and
restriction is cumulative (a union, not an overwrite). -/
def AddDisallowMethods (apiSchema : APISchema) (methods : List String) : APISchema :=
  { apiSchema with DisallowMethods := apiSchema.DisallowMethods ∪ methods }

/-- The struct `schema.Template` with the fields `run` fills in; a field left
out of the literal is `nil`. -/
structure Template (T : Types) (W : Type) where
  Group : String
  Kind : String
  Customize : Option (APISchema → APISchema)
  StoreFactory : Option (Store T W → Store T W)

/-- The (group, kind) pair a template is registered for. -/
def Template.key {T : Types} {W : Type} (t : Template T W) : String × String :=
  (t.Group, t.Kind)

/-- The first template of `run`: no method is allowed on secrets. -/
def secretTemplate {T : Types} {W : Type} : Template T W where
  Group := ""
  Kind := "Secret"
  Customize := some (fun apiSchema =>
    AddDisallowMethods apiSchema
      [MethodGet, MethodPost, MethodPut, MethodDelete, MethodPatch])
  StoreFactory := none

/-- The second template of `run`: config maps get the custom store. -/
def configMapTemplate {T : Types} {W : Type} (ac : T.APIRequest → AccessControl T W) :
    Template T W where
  Group := ""
  Kind := "ConfigMap"
  Customize := none
  StoreFactory := some (fun store => (ConfigMapCustomStore.mk store).toStore ac)

/-- Modelled from the spec: the customization step of schema resolution,
which is not in `main.go`; a template with a customization applies it to the
schema, any other leaves the schema unchanged. -/
def Template.customize {T : Types} {W : Type} (t : Template T W) (s : APISchema) : APISchema :=
  match t.Customize with
  | some f => f s
  | none => s

/-- The verb set of the spec. -/
inductive Verb where
  | Get | List | Create | Update | Delete | Patch
deriving DecidableEq, Repr

/-- Modelled from the spec: the member of a method-restriction set that
stands for each verb, as the spec pairs them (Get, Post = Create,
Put = Update, Delete, Patch); the spec pairs List with none of them. -/
def Verb.method : Verb → Option String
  | .Get => some MethodGet
  | .List => none
  | .Create => some MethodPost
  | .Update => some MethodPut
  | .Delete => some MethodDelete
  | .Patch => some MethodPatch

/-- What the dispatcher does with a request. -/
inductive Dispatch where
  | methodNotAllowed
  | reachStore
deriving DecidableEq, Repr

/-- Modelled from the spec: method restriction enforcement by the request
dispatcher, which is not in `main.go`; a verb in the schema's disallowed set
short-circuits with method-not-allowed, a verb not in it reaches the store. -/
def dispatch (s : APISchema) (v : Verb) : Dispatch :=
  match v.method with
  | some m => if m ∈ s.DisallowMethods then Dispatch.methodNotAllowed else Dispatch.reachStore
  | none => Dispatch.reachStore

/-! ## run -/

/-- The value `ratelimit.None` and any other rate limiter. -/
inductive RateLimiter where
  | None
  | other (name : String)
deriving DecidableEq, Repr

/-- The part of `rest.Config` that `run` touches. -/
structure RestConfig where
  Host : String
  RateLimiter : Option RateLimiter
deriving DecidableEq, Repr

/-- The struct `server.Options` with the field `run` fills in: the
authenticator behind the middleware. -/
structure Options where
  AuthMiddleware : Request → Option DefaultInfo × Bool × Option Error

/-- The host libraries `run` calls, over a server state `S`: loading the
client configuration, `server.New` (which also holds the signal context),
`SchemaFactory.AddTemplate` and `http.ListenAndServe`. -/
structure Host (T : Types) (W S : Type) where
  ClientConfig : Except Error RestConfig
  New : RestConfig → Options → Except Error S
  AddTemplate : Template T W → S → S
  ListenAndServe : String → S → Option Error

/-- The function `run`: the error it returns and the server state it leaves,
if a server was built. -/
def run {T : Types} {W S : Type} (h : Host T W S) (ac : T.APIRequest → AccessControl T W) :
    Option Error × Option S :=
  match h.ClientConfig with
  | .error err => (some err, none)
  | .ok restConfig =>
    let restConfig := { restConfig with RateLimiter := some RateLimiter.None }
    match h.New restConfig { AuthMiddleware := MyAuth } with
    | .error err => (some err, none)
    | .ok steve =>
      let steve := h.AddTemplate secretTemplate steve
      let steve := h.AddTemplate (configMapTemplate ac) steve
      (h.ListenAndServe ":8080" steve, some steve)

/-- A host that behaves as `h` does and appends every template passed to
`AddTemplate` to a log kept beside the server state. -/
def recordingHost {T : Types} {W S : Type} (h : Host T W S) :
    Host T W (S × List (Template T W)) where
  ClientConfig := h.ClientConfig
  New := fun cfg opts =>
    match h.New cfg opts with
    | .error err => .error err
    | .ok s => .ok (s, [])
  AddTemplate := fun t s => (h.AddTemplate t s.1, s.2 ++ [t])
  ListenAndServe := fun addr s => h.ListenAndServe addr s.1

/-- The templates `run` passes to `AddTemplate`, in order. -/
def registered {T : Types} {W S : Type} (h : Host T W S)
    (ac : T.APIRequest → AccessControl T W) : List (Template T W) :=
  match (run (recordingHost h) ac).2 with
  | some s => s.2
  | none => []

/-! ## Test fixtures -/

/-- Small concrete payload types: requests, schemas and objects are strings. -/
@[reducible] def strTypes : Types where
  APIRequest := String
  APIObject := String
  APIObjectList := List String
  WatchRequest := String
  APIEvents := List String
  zeroAPIObject := ""

/-- A store over a world that lists the created objects. -/
def listStore : Store strTypes (List String) where
  ByID := fun _ _ id w => ((id, none), w)
  List := fun _ _ w => ((w, none), w)
  Create := fun _ _ data w => ((data, none), w ++ [data])
  Update := fun _ _ data _ w => ((data, none), w)
  Delete := fun _ _ id w => ((id, none), w.filter (fun x => x != id))
  Watch := fun _ _ _ w => ((w, none), w)

/-- An oracle that denies every check. -/
def denyAll : AccessControl strTypes (List String) where
  CanDo := fun _ resource verb _ _ w => (some ⟨"forbidden: " ++ verb ++ " " ++ resource⟩, w)

/-- An oracle that permits every check. -/
def permitAll : AccessControl strTypes (List String) where
  CanDo := fun _ _ _ _ _ w => (none, w)

/-- The schema of config maps before any customization. -/
def configMapSchema : APISchema := { Group := "", Kind := "ConfigMap", DisallowMethods := [] }

/-- The schema of secrets before any customization. -/
def secretSchema : APISchema := { Group := "", Kind := "Secret", DisallowMethods := [] }

/-- A request without any header. -/
def anonymousRequest : Request := { Method := "GET", URL := "/v1/configmaps", Header := [] }

/-- A request with a bearer token. -/
def tokenRequest : Request :=
  { Method := "GET", URL := "/v1/configmaps", Header := [("Authorization", ["Bearer abc"])] }

/-- A host whose setup succeeds; the server state counts the templates. -/
def okHost : Host strTypes (List String) Nat where
  ClientConfig := .ok { Host := "https://localhost:6443", RateLimiter := none }
  New := fun _ _ => .ok 0
  AddTemplate := fun _ n => n + 1
  ListenAndServe := fun _ _ => some ⟨"http: Server closed"⟩

/-- A host with no client configuration to load. -/
def noConfigHost : Host strTypes (List String) Nat where
  ClientConfig := .error ⟨"invalid configuration: no configuration has been provided"⟩
  New := fun _ _ => .ok 0
  AddTemplate := fun _ n => n + 1
  ListenAndServe := fun _ _ => some ⟨"http: Server closed"⟩

/-! ## The observed run of Create -/

section CreateRun

variable {T : Types} {W : Type}

/-- A denied run: the check is the only call, the result is the zero object
with the oracle's error. -/
theorem observeCreate_denied (ac : T.APIRequest → AccessControl T W) (inner : Store T W)
    (apiOp : T.APIRequest) (schema : APISchema) (data : T.APIObject) (w : W) (e : Error)
    (h : ((ac apiOp).CanDo apiOp "secrets" "POST" "" "" w).1 = some e) :
    observeCreate ac inner apiOp schema data w =
      ((T.zeroAPIObject, some e), ((ac apiOp).CanDo apiOp "secrets" "POST" "" "" w).2,
        [Call.canDo apiOp "secrets" "POST" "" "" (some e)]) := by
  simp only [observeCreate, ConfigMapCustomStore.Create, recordingAccessControl, h,
    List.nil_append]

/-- A permitted run: the check, then one inner `Create` from the world the
check left, whose answer is the result. -/
theorem observeCreate_permitted (ac : T.APIRequest → AccessControl T W) (inner : Store T W)
    (apiOp : T.APIRequest) (schema : APISchema) (data : T.APIObject) (w : W)
    (h : ((ac apiOp).CanDo apiOp "secrets" "POST" "" "" w).1 = none) :
    observeCreate ac inner apiOp schema data w =
      ((inner.Create apiOp schema data ((ac apiOp).CanDo apiOp "secrets" "POST" "" "" w).2).1,
        (inner.Create apiOp schema data ((ac apiOp).CanDo apiOp "secrets" "POST" "" "" w).2).2,
        [Call.canDo apiOp "secrets" "POST" "" "" none,
          Call.create apiOp schema data
            (inner.Create apiOp schema data
              ((ac apiOp).CanDo apiOp "secrets" "POST" "" "" w).2).1]) := by
  simp only [observeCreate, ConfigMapCustomStore.Create, recordingAccessControl, recordingStore,
    h, List.nil_append, List.singleton_append]

end CreateRun

/-! ## Create: the secondary check -/

section CreateClaims

variable {T : Types} {W : Type}

/-- C1: in the observed run of `ConfigMapCustomStore.Create`, if the
access-control check answered an error `e`, then the inner store's `Create`
was called zero times and the result is the empty API object with exactly
`e`; and in every run, each call of the inner store's `Create` in the log is
preceded by a check that answered `nil`. -/
theorem create_denied_never_reaches_inner (ac : T.APIRequest → AccessControl T W)
    (inner : Store T W) (apiOp : T.APIRequest) (schema : APISchema) (data : T.APIObject)
    (w : W) :
    (∀ (a : T.APIRequest) (resource verb ns name : String) (e : Error),
        Call.canDo a resource verb ns name (some e) ∈
          (observeCreate ac inner apiOp schema data w).2.2 →
        (observeCreate ac inner apiOp schema data w).1 = (T.zeroAPIObject, some e) ∧
        ((observeCreate ac inner apiOp schema data w).2.2.filter Call.isCreate).length = 0) ∧
    (∀ (pre post : List (Call T)) (c : Call T),
        (observeCreate ac inner apiOp schema data w).2.2 = pre ++ c :: post →
        c.isCreate = true → ∃ p ∈ pre, p.isPermit = true) := by
  cases hchk : ((ac apiOp).CanDo apiOp "secrets" "POST" "" "" w).1 with
  | some e0 =>
    rw [observeCreate_denied ac inner apiOp schema data w e0 hchk]
    refine ⟨?_, ?_⟩
    · intro a resource verb ns name e hmem
      simp only [List.mem_singleton, Call.canDo.injEq, Option.some.injEq] at hmem
      obtain ⟨_, _, _, _, _, he⟩ := hmem
      subst he
      exact ⟨rfl, rfl⟩
    · intro pre post c hlog hc
      cases pre with
      | nil =>
        simp only [List.nil_append, List.cons.injEq] at hlog
        rw [← hlog.1] at hc
        simp [Call.isCreate] at hc
      | cons p pre =>
        simp at hlog
  | none =>
    rw [observeCreate_permitted ac inner apiOp schema data w hchk]
    refine ⟨?_, ?_⟩
    · intro a resource verb ns name e hmem
      simp at hmem
    · intro pre post c hlog hc
      cases pre with
      | nil =>
        simp only [List.nil_append, List.cons.injEq] at hlog
        rw [← hlog.1] at hc
        simp [Call.isCreate] at hc
      | cons p pre =>
        simp only [List.cons_append, List.cons.injEq] at hlog
        exact ⟨p, List.mem_cons_self _ _, by rw [← hlog.1]; rfl⟩

/-- A denied run on concrete doubles: the oracle denies, the result is the
empty object with the oracle's error and the inner store saw no `Create`. -/
theorem create_denied_never_reaches_inner_witness :
    Call.canDo "req" "secrets" "POST" "" "" (some ⟨"forbidden: POST secrets"⟩) ∈
      (observeCreate (fun _ => denyAll) listStore "req" configMapSchema "cm" []).2.2 ∧
    (observeCreate (fun _ => denyAll) listStore "req" configMapSchema "cm" []).1 =
      ("", some ⟨"forbidden: POST secrets"⟩) ∧
    ((observeCreate (fun _ => denyAll) listStore "req" configMapSchema "cm" []).2.2.filter
      Call.isCreate).length = 0 :=
  have hmem : Call.canDo "req" "secrets" "POST" "" "" (some ⟨"forbidden: POST secrets"⟩) ∈
      (observeCreate (fun _ => denyAll) listStore "req" configMapSchema "cm" []).2.2 :=
    List.mem_singleton.mpr rfl
  ⟨hmem,
    (create_denied_never_reaches_inner (fun _ => denyAll) listStore "req" configMapSchema "cm"
      []).1 "req" "secrets" "POST" "" "" ⟨"forbidden: POST secrets"⟩ hmem⟩

/-- C2: in the observed run of `ConfigMapCustomStore.Create`, if the
access-control check answered `nil`, then the inner store's `Create` was
called exactly once, with the request, schema and payload `Create` received,
and the (object, error) pair it answered is the pair `Create` returns; that
call ran from the world the check left and its final world is the final world. -/
theorem create_permitted_delegates_once (ac : T.APIRequest → AccessControl T W)
    (inner : Store T W) (apiOp : T.APIRequest) (schema : APISchema) (data : T.APIObject)
    (w : W) (a : T.APIRequest) (resource verb ns name : String)
    (h : Call.canDo a resource verb ns name none ∈
      (observeCreate ac inner apiOp schema data w).2.2) :
    (observeCreate ac inner apiOp schema data w).2.2.filter Call.isCreate =
      [Call.create apiOp schema data (observeCreate ac inner apiOp schema data w).1] ∧
    (observeCreate ac inner apiOp schema data w).1 =
      (inner.Create apiOp schema data
        ((ac apiOp).CanDo apiOp "secrets" "POST" "" "" w).2).1 ∧
    (observeCreate ac inner apiOp schema data w).2.1 =
      (inner.Create apiOp schema data
        ((ac apiOp).CanDo apiOp "secrets" "POST" "" "" w).2).2 := by
  cases hchk : ((ac apiOp).CanDo apiOp "secrets" "POST" "" "" w).1 with
  | some e0 =>
    rw [observeCreate_denied ac inner apiOp schema data w e0 hchk] at h
    simp at h
  | none =>
    rw [observeCreate_permitted ac inner apiOp schema data w hchk]
    exact ⟨rfl, rfl, rfl⟩

/-- A permitted run on concrete doubles: one inner `Create` of the payload,
whose answer is returned and whose effect is in the final world. -/
theorem create_permitted_delegates_once_witness :
    (observeCreate (fun _ => permitAll) listStore "req" configMapSchema "cm" []).2.2.filter
        Call.isCreate =
      [Call.create "req" configMapSchema "cm" ("cm", none)] ∧
    (observeCreate (fun _ => permitAll) listStore "req" configMapSchema "cm" []).1 =
      ("cm", none) ∧
    (observeCreate (fun _ => permitAll) listStore "req" configMapSchema "cm" []).2.1 = ["cm"] :=
  create_permitted_delegates_once (fun _ => permitAll) listStore "req" configMapSchema "cm" []
    "req" "secrets" "POST" "" "" (List.mem_cons_self _ _)

/-- C3, as stated, fails: on a permitted run over concrete doubles the one
check in the log carries the verb `"POST"`, so the checks made are not a
single check with the verb `"create"`. -/
theorem create_check_verb_is_not_create :
    (observeCreate (fun _ => permitAll) listStore "req" configMapSchema "cm" []).2.2.filter
        Call.isCanDo =
      [Call.canDo "req" "secrets" "POST" "" "" none] ∧
    (observeCreate (fun _ => permitAll) listStore "req" configMapSchema "cm" []).2.2.filter
        Call.isCanDo ≠
      [Call.canDo "req" "secrets" "create" "" "" none] := by
  rw [observeCreate_permitted (fun _ => permitAll) listStore "req" configMapSchema "cm" [] rfl]
  refine ⟨rfl, ?_⟩
  intro h
  have hc : List.filter Call.isCanDo
      [Call.canDo (T := strTypes) "req" "secrets" "POST" "" "" none,
        Call.create "req" configMapSchema "cm"
          (listStore.Create "req" configMapSchema "cm"
            (permitAll.CanDo "req" "secrets" "POST" "" "" []).2).1] =
      [Call.canDo "req" "secrets" "POST" "" "" none] := rfl
  rw [hc] at h
  simp only [List.cons.injEq, Call.canDo.injEq, and_true, true_and] at h
  exact absurd h (by decide)

/-- C3, amended: in every run of `ConfigMapCustomStore.Create` the
access-control check is made exactly once, with the request `Create`
received, the resource `"secrets"`, the verb `"POST"`, an empty namespace
and an empty name. -/
theorem create_checks_once_secrets_post (ac : T.APIRequest → AccessControl T W)
    (inner : Store T W) (apiOp : T.APIRequest) (schema : APISchema) (data : T.APIObject)
    (w : W) :
    (observeCreate ac inner apiOp schema data w).2.2.filter Call.isCanDo =
      [Call.canDo apiOp "secrets" "POST" "" ""
        ((ac apiOp).CanDo apiOp "secrets" "POST" "" "" w).1] := by
  cases hchk : ((ac apiOp).CanDo apiOp "secrets" "POST" "" "" w).1 with
  | some e0 =>
    rw [observeCreate_denied ac inner apiOp schema data w e0 hchk]
    rfl
  | none =>
    rw [observeCreate_permitted ac inner apiOp schema data w hchk]
    rfl

/-- C6: an error `e` returned by `ConfigMapCustomStore.Create` is the error
the access-control check answered, or the check answered `nil` and `e` is the
error the inner store's `Create` answered; and `Create` returns a nil error
if and only if the check answered `nil` and the inner store's `Create`
answered a nil error. -/
theorem create_error_comes_from_check_or_inner (c : ConfigMapCustomStore T W)
    (ac : T.APIRequest → AccessControl T W) (apiOp : T.APIRequest) (schema : APISchema)
    (data : T.APIObject) (w : W) :
    (∀ e : Error, (c.Create ac apiOp schema data w).1.2 = some e →
        ((ac apiOp).CanDo apiOp "secrets" "POST" "" "" w).1 = some e ∨
        (((ac apiOp).CanDo apiOp "secrets" "POST" "" "" w).1 = none ∧
          (c.Store.Create apiOp schema data
            ((ac apiOp).CanDo apiOp "secrets" "POST" "" "" w).2).1.2 = some e)) ∧
    ((c.Create ac apiOp schema data w).1.2 = none ↔
        (((ac apiOp).CanDo apiOp "secrets" "POST" "" "" w).1 = none ∧
          (c.Store.Create apiOp schema data
            ((ac apiOp).CanDo apiOp "secrets" "POST" "" "" w).2).1.2 = none)) := by
  rcases hchk : (ac apiOp).CanDo apiOp "secrets" "POST" "" "" w with ⟨r, w1⟩
  cases r with
  | some e0 => simp [ConfigMapCustomStore.Create, hchk]
  | none => simp [ConfigMapCustomStore.Create, hchk]

/-- A denied `Create` on concrete doubles returns the oracle's error. -/
theorem create_error_comes_from_check_or_inner_witness :
    ((ConfigMapCustomStore.mk listStore).Create (fun _ => denyAll) "req" configMapSchema "cm"
        []).1.2 = some ⟨"forbidden: POST secrets"⟩ ∧
    (denyAll.CanDo "req" "secrets" "POST" "" "" []).1 = some ⟨"forbidden: POST secrets"⟩ :=
  ⟨rfl, ((create_error_comes_from_check_or_inner (ConfigMapCustomStore.mk listStore)
      (fun _ => denyAll) "req" configMapSchema "cm" []).1 ⟨"forbidden: POST secrets"⟩
      rfl).resolve_right (fun h => absurd h.1 (by decide))⟩

end CreateClaims

/-! ## The operations that are not overridden -/

/-- C4: for every inner store and every operation other than `Create`
(`ByID`, `List`, `Update`, `Delete`, `Watch`), the operation on a
`ConfigMapCustomStore` wrapping the inner store returns the result, the error
and the final world the inner store gives on the same input, through the
struct and through the `types.Store` interface alike; observed with recording
doubles, it makes one call, to the same operation of the inner store with the
same input, and no access-control check. -/
theorem unoverridden_operations_forward {T : Types} {W : Type} (inner : Store T W)
    (ac : T.APIRequest → AccessControl T W) (apiOp : T.APIRequest) (schema : APISchema)
    (id : String) (data : T.APIObject) (wr : T.WatchRequest) (w : W) :
    ((ConfigMapCustomStore.mk inner).ByID apiOp schema id w = inner.ByID apiOp schema id w ∧
      (ConfigMapCustomStore.mk inner).List apiOp schema w = inner.List apiOp schema w ∧
      (ConfigMapCustomStore.mk inner).Update apiOp schema data id w =
        inner.Update apiOp schema data id w ∧
      (ConfigMapCustomStore.mk inner).Delete apiOp schema id w = inner.Delete apiOp schema id w ∧
      (ConfigMapCustomStore.mk inner).Watch apiOp schema wr w = inner.Watch apiOp schema wr w) ∧
    (((ConfigMapCustomStore.mk inner).toStore ac).ByID = inner.ByID ∧
      ((ConfigMapCustomStore.mk inner).toStore ac).List = inner.List ∧
      ((ConfigMapCustomStore.mk inner).toStore ac).Update = inner.Update ∧
      ((ConfigMapCustomStore.mk inner).toStore ac).Delete = inner.Delete ∧
      ((ConfigMapCustomStore.mk inner).toStore ac).Watch = inner.Watch) ∧
    (((ConfigMapCustomStore.mk (recordingStore inner)).ByID apiOp schema id (w, [])).2.2 =
        [Call.byID apiOp schema id (inner.ByID apiOp schema id w).1] ∧
      ((ConfigMapCustomStore.mk (recordingStore inner)).List apiOp schema (w, [])).2.2 =
        [Call.list apiOp schema (inner.List apiOp schema w).1] ∧
      ((ConfigMapCustomStore.mk (recordingStore inner)).Update apiOp schema data id
          (w, [])).2.2 =
        [Call.update apiOp schema data id (inner.Update apiOp schema data id w).1] ∧
      ((ConfigMapCustomStore.mk (recordingStore inner)).Delete apiOp schema id (w, [])).2.2 =
        [Call.delete apiOp schema id (inner.Delete apiOp schema id w).1] ∧
      ((ConfigMapCustomStore.mk (recordingStore inner)).Watch apiOp schema wr (w, [])).2.2 =
        [Call.watch apiOp schema wr (inner.Watch apiOp schema wr w).1]) ∧
    (((ConfigMapCustomStore.mk (recordingStore inner)).ByID apiOp schema id (w, [])).2.2.filter
        Call.isCanDo = [] ∧
      ((ConfigMapCustomStore.mk (recordingStore inner)).List apiOp schema (w, [])).2.2.filter
        Call.isCanDo = [] ∧
      ((ConfigMapCustomStore.mk (recordingStore inner)).Update apiOp schema data id
        (w, [])).2.2.filter Call.isCanDo = [] ∧
      ((ConfigMapCustomStore.mk (recordingStore inner)).Delete apiOp schema id
        (w, [])).2.2.filter Call.isCanDo = [] ∧
      ((ConfigMapCustomStore.mk (recordingStore inner)).Watch apiOp schema wr
        (w, [])).2.2.filter Call.isCanDo = []) :=
  ⟨⟨rfl, rfl, rfl, rfl, rfl⟩, ⟨rfl, rfl, rfl, rfl, rfl⟩, ⟨rfl, rfl, rfl, rfl, rfl⟩,
    ⟨rfl, rfl, rfl, rfl, rfl⟩⟩

/-! ## The Secret template -/

/-- Every method listed by the Secret template is in the restriction set of
the customized schema. -/
theorem secret_methods_disallowed {T : Types} {W : Type} (s : APISchema) (m : String)
    (hm : m ∈ [MethodGet, MethodPost, MethodPut, MethodDelete, MethodPatch]) :
    m ∈ ((secretTemplate (T := T) (W := W)).customize s).DisallowMethods := by
  simp only [Template.customize, secretTemplate, AddDisallowMethods, List.mem_union_iff]
  exact Or.inr hm

/-- The templates `run` registers are none, or its two templates in order. -/
theorem registered_cases {T : Types} {W S : Type} (h : Host T W S)
    (ac : T.APIRequest → AccessControl T W) :
    registered h ac = [] ∨ registered h ac = [secretTemplate, configMapTemplate ac] := by
  unfold registered run
  cases hc : h.ClientConfig with
  | error err => simp [recordingHost, hc]
  | ok cfg =>
    cases hn : h.New { cfg with RateLimiter := some RateLimiter.None }
        { AuthMiddleware := MyAuth } with
    | error err => simp [recordingHost, hc, hn]
    | ok steve => simp [recordingHost, hc, hn]

/-- C5, as stated, fails: after the customization of the Secret template is
applied to the secret schema, the disallowed-method set is exactly GET, POST,
PUT, DELETE, PATCH; the verb List is not in it and a List request reaches
the store, so not every verb of the verb set is answered method-not-allowed. -/
theorem secret_template_leaves_list :
    ((secretTemplate (T := strTypes) (W := List String)).customize
      secretSchema).DisallowMethods = ["GET", "POST", "PUT", "DELETE", "PATCH"] ∧
    dispatch ((secretTemplate (T := strTypes) (W := List String)).customize secretSchema)
      Verb.List = Dispatch.reachStore ∧
    ¬ (∀ v : Verb,
      dispatch ((secretTemplate (T := strTypes) (W := List String)).customize secretSchema)
        v = Dispatch.methodNotAllowed) := by
  refine ⟨by decide, rfl, ?_⟩
  intro hall
  exact absurd (hall Verb.List) (by decide)

/-- C5, amended: for the template that `run` registers for group `""` and
kind `"Secret"`, after its customization is applied to any schema the methods
GET, POST, PUT, DELETE and PATCH are all in the schema's disallowed-method
set, so the dispatcher answers method-not-allowed for each of the verbs Get,
Create, Update, Delete and Patch. -/
theorem secret_template_disallows_five_verbs {T : Types} {W S : Type} (h : Host T W S)
    (ac : T.APIRequest → AccessControl T W) (t : Template T W)
    (ht : t ∈ registered h ac) (hk : t.key = ("", "Secret")) (s : APISchema) :
    "GET" ∈ (t.customize s).DisallowMethods ∧
    "POST" ∈ (t.customize s).DisallowMethods ∧
    "PUT" ∈ (t.customize s).DisallowMethods ∧
    "DELETE" ∈ (t.customize s).DisallowMethods ∧
    "PATCH" ∈ (t.customize s).DisallowMethods ∧
    ∀ v : Verb, v ≠ Verb.List → dispatch (t.customize s) v = Dispatch.methodNotAllowed := by
  have hsecret : t = secretTemplate := by
    rcases registered_cases h ac with hr | hr
    · rw [hr] at ht
      cases ht
    · rw [hr] at ht
      simp only [List.mem_cons, List.mem_singleton, List.not_mem_nil, or_false] at ht
      rcases ht with ht | ht
      · exact ht
      · rw [ht] at hk
        simp [Template.key, configMapTemplate] at hk
  subst hsecret
  have hm := secret_methods_disallowed (T := T) (W := W) s
  refine ⟨hm _ (by decide), hm _ (by decide), hm _ (by decide), hm _ (by decide),
    hm _ (by decide), ?_⟩
  intro v hv
  cases v with
  | List => exact absurd rfl hv
  | Get => simp only [dispatch, Verb.method, hm MethodGet (by decide), if_true]
  | Create => simp only [dispatch, Verb.method, hm MethodPost (by decide), if_true]
  | Update => simp only [dispatch, Verb.method, hm MethodPut (by decide), if_true]
  | Delete => simp only [dispatch, Verb.method, hm MethodDelete (by decide), if_true]
  | Patch => simp only [dispatch, Verb.method, hm MethodPatch (by decide), if_true]

/-- On a host whose setup succeeds, the Secret template is registered and
the customized secret schema refuses a Create. -/
theorem secret_template_disallows_five_verbs_witness :
    secretTemplate ∈ registered okHost (fun _ => permitAll) ∧
    (secretTemplate (T := strTypes) (W := List String)).key = ("", "Secret") ∧
    "GET" ∈ ((secretTemplate (T := strTypes) (W := List String)).customize
      secretSchema).DisallowMethods ∧
    dispatch ((secretTemplate (T := strTypes) (W := List String)).customize secretSchema)
      Verb.Create = Dispatch.methodNotAllowed :=
  have ht : secretTemplate ∈ registered okHost (fun _ => permitAll) :=
    List.mem_cons_self _ _
  have hall := secret_template_disallows_five_verbs okHost (fun _ => permitAll)
    secretTemplate ht rfl secretSchema
  ⟨ht, rfl, hall.1, hall.2.2.2.2.2 Verb.Create (by decide)⟩

/-! ## MyAuth -/

/-- C7, as stated, fails: a request without any header, hence without
credentials, is answered with the identity bob and authenticated = true, not
with no identity and authenticated = false. -/
theorem myAuth_authenticates_anonymous :
    anonymousRequest.Header = [] ∧ anonymousRequest.authorization = none ∧
    (MyAuth anonymousRequest).2.1 = true ∧
    (MyAuth anonymousRequest).1 ≠ none ∧
    MyAuth anonymousRequest ≠ (none, false, none) := by
  decide

/-- C7, amended: for a request that carries no credentials or malformed
ones, whatever reading `cred` of the credentials is taken, `MyAuth` returns
authenticated = true, the identity bob and a nil error. -/
theorem myAuth_without_credentials {κ : Type} (cred : Request → Option κ) (req : Request)
    (_h : cred req = none) :
    MyAuth req =
      (some { Name := "bob", UID := "bob", Groups := ["system:masters"] }, true, none) :=
  rfl

/-- The request without headers has no authorization and is answered with bob. -/
theorem myAuth_without_credentials_witness :
    anonymousRequest.authorization = none ∧
    MyAuth anonymousRequest =
      (some { Name := "bob", UID := "bob", Groups := ["system:masters"] }, true, none) :=
  ⟨rfl, myAuth_without_credentials Request.authorization anonymousRequest rfl⟩

/-- C8: for any two requests carrying identical credentials, whatever
reading `cred` of the credentials is taken, `MyAuth` returns identities with
the same name, UID and group list, the same authenticated flag and the same
error. -/
theorem myAuth_deterministic {κ : Type} (cred : Request → κ) (r1 r2 : Request)
    (_h : cred r1 = cred r2) :
    (MyAuth r1).1.map DefaultInfo.Name = (MyAuth r2).1.map DefaultInfo.Name ∧
    (MyAuth r1).1.map DefaultInfo.UID = (MyAuth r2).1.map DefaultInfo.UID ∧
    (MyAuth r1).1.map DefaultInfo.Groups = (MyAuth r2).1.map DefaultInfo.Groups ∧
    (MyAuth r1).2.1 = (MyAuth r2).2.1 ∧
    (MyAuth r1).2.2 = (MyAuth r2).2.2 ∧
    MyAuth r1 = MyAuth r2 :=
  ⟨rfl, rfl, rfl, rfl, rfl, rfl⟩

/-- Two different requests with the same bearer token get the same answer. -/
theorem myAuth_deterministic_witness :
    tokenRequest.authorization = { tokenRequest with Method := "POST" }.authorization ∧
    MyAuth tokenRequest = MyAuth { tokenRequest with Method := "POST" } :=
  ⟨rfl, (myAuth_deterministic Request.authorization tokenRequest
    { tokenRequest with Method := "POST" } rfl).2.2.2.2.2⟩

/-- C10: for every request, `MyAuth` returns authenticated = true, a nil
error and an identity named `"bob"` with UID `"bob"` whose group list is
exactly `["system:masters"]`, so every caller is in the administrative group. -/
theorem myAuth_always_bob (req : Request) :
    (MyAuth req).2.1 = true ∧ (MyAuth req).2.2 = none ∧
    (∃ info : DefaultInfo, (MyAuth req).1 = some info ∧ info.Name = "bob" ∧
      info.UID = "bob" ∧ info.Groups = ["system:masters"] ∧
      "system:masters" ∈ info.Groups) :=
  ⟨rfl, rfl, ⟨_, rfl, rfl, rfl, rfl, List.mem_singleton.mpr rfl⟩⟩

/-! ## The templates run registers -/

/-- C9: in every run of `run`, no two of the templates it passes to
`AddTemplate` share a (group, kind) pair; a run that returns before building
the server registers none, and a run whose client configuration and server
are built registers exactly two templates, one for `("", "Secret")` and one
for `("", "ConfigMap")`. -/
theorem run_registers_distinct_templates {T : Types} {W S : Type} (h : Host T W S)
    (ac : T.APIRequest → AccessControl T W) :
    ((registered h ac).map Template.key).Nodup ∧
    ((run h ac).2 = none → registered h ac = []) ∧
    (∀ (cfg : RestConfig) (steve : S), h.ClientConfig = .ok cfg →
        h.New { cfg with RateLimiter := some RateLimiter.None } { AuthMiddleware := MyAuth } =
          .ok steve →
        (registered h ac).map Template.key = [("", "Secret"), ("", "ConfigMap")] ∧
        (registered h ac).length = 2) := by
  unfold registered run
  cases hc : h.ClientConfig with
  | error err => simp [recordingHost, hc]
  | ok cfg =>
    cases hn : h.New { cfg with RateLimiter := some RateLimiter.None }
        { AuthMiddleware := MyAuth } with
    | error err =>
      simp only [recordingHost, hc, hn, List.map_nil, List.nodup_nil, true_and,
        implies_true, Except.ok.injEq]
      intro cfg1 steve hcfg hnew
      subst hcfg
      rw [hn] at hnew
      cases hnew
    | ok steve =>
      simp [recordingHost, hc, hn, Template.key, secretTemplate, configMapTemplate]

/-- A run on a host whose setup succeeds registers the two templates; a run
on a host without a client configuration registers none. -/
theorem run_registers_distinct_templates_witness :
    ((registered okHost (fun _ => permitAll)).map Template.key =
        [("", "Secret"), ("", "ConfigMap")] ∧
      (registered okHost (fun _ => permitAll)).length = 2) ∧
    registered noConfigHost (fun _ => permitAll) = [] :=
  ⟨(run_registers_distinct_templates okHost (fun _ => permitAll)).2.2
      { Host := "https://localhost:6443", RateLimiter := none } 0 rfl rfl,
    (run_registers_distinct_templates noConfigHost (fun _ => permitAll)).2.1 rfl⟩

end SteveExample
